import Mathlib

set_option maxHeartbeats 1000000

/-- ASCII portion of the whitespace predicate used by the trimming in the source
(the source trims with the host language's whitespace notion; all content
relevant here is ASCII). -/
def rust_is_whitespace (c : Char) : Bool :=
  c == ' ' || c == '\t' || c == '\n' || c == '\x0b' || c == '\x0c' || c == '\r'

/-- Trim whitespace from both ends of a character list. -/
def trim_chars (l : List Char) : List Char :=
  ((l.dropWhile rust_is_whitespace).reverse.dropWhile rust_is_whitespace).reverse

/-- Model of the trim applied to each line in the source. -/
def rust_trim (s : String) : String :=
  String.mk (trim_chars s.data)

/-- Model of the starts_with test on strings. -/
def rust_starts_with (s p : String) : Bool :=
  p.data.isPrefixOf s.data

/-- Model of the marker stripping: returns the text after the marker when the
string starts with it, and nothing otherwise. -/
def rust_strip (s p : String) : Option String :=
  if p.data.isPrefixOf s.data then some (String.mk (s.data.drop p.data.length)) else none

/-- The if-let chain of src/src/lib.rs lines 93-101: try the three comment
markers in order. -/
def marker_remainder (trimmed : String) : Option String :=
  match rust_strip trimmed "#" with
  | some d => some d
  | none =>
    match rust_strip trimmed "//" with
    | some d => some d
    | none => rust_strip trimmed "--"

/-- Embedding of extract_description (src/src/lib.rs lines 81-115, identical in
src/src/script.rs and src/src/main.rs), on the list of lines of the file. -/
def extract_description : List String → Option String
  | [] => none
  | line :: rest =>
    let trimmed := rust_trim line
    if trimmed.data.isEmpty || rust_starts_with trimmed "#!" then
      extract_description rest
    else
      match marker_remainder trimmed with
      | some d =>
        let cleaned := rust_trim d
        if cleaned.data.isEmpty then extract_description rest
        else some cleaned
      | none => none

/-- The Script record of src/src/lib.rs lines 7-13 (field order as in the
source: path, name, description, category). -/
structure Script where
  path : String
  name : String
  description : Option String
  category : Option String
deriving DecidableEq, Repr

/-- What the scanner can observe about one regular file: its permission mode
bits, whether its metadata call succeeds, whether opening/reading it succeeds,
and its lines. -/
structure FileData where
  mode : Nat
  metaReadable : Bool
  contentReadable : Bool
  lines : List String
deriving DecidableEq, Repr

mutual

/-- A filesystem tree as the scanner sees it: regular files carrying FileData,
and directories carrying a readability flag (whether read_dir succeeds) and
their entries in iteration order. -/
inductive FsEntry where
  | file (name : String) (d : FileData)
  | dir (name : String) (readable : Bool) (entries : FsEntries)

/-- The entry list of one directory, in iteration order. -/
inductive FsEntries where
  | nil
  | cons (head : FsEntry) (tail : FsEntries)

end

/-- The fallible call of extract_description on a file: an unreadable file
yields an error, a readable one the pure extraction over its lines. -/
def extract_description_result (d : FileData) : Except String (Option String) :=
  if d.contentReadable then Except.ok (extract_description d.lines)
  else Except.error "cannot read file"

/-- The unwrap_or(None) applied at the call site in the scanner
(src/src/lib.rs line 159). -/
def unwrap_or_none : Except String (Option String) → Option String
  | Except.ok v => v
  | Except.error _ => none

mutual

/-- The body of the per-entry loop of scan_directory_recursive
(src/src/lib.rs lines 130-168): a subdirectory is recursed into with its own
base name as category (read_dir failure is an error); a regular file first
has its metadata read (failure is an error, propagated by the source's
question-mark operator), is kept iff some execute bit (mode & 0o111) is set,
and its description extraction failure degrades to none. -/
def scan_fs_entry (dirPath : String) (category : Option String) :
    FsEntry → Except String (List Script)
  | FsEntry.dir name readable entries =>
    if readable then
      scan_directory_recursive (dirPath ++ "/" ++ name) (some name) entries
    else Except.error ("cannot read directory " ++ (dirPath ++ "/" ++ name))
  | FsEntry.file name d =>
    if d.metaReadable then
      if d.mode &&& 0o111 != 0 then
        Except.ok [{ path := dirPath ++ "/" ++ name, name := name,
                     description := unwrap_or_none (extract_description_result d),
                     category := category }]
      else Except.ok []
    else Except.error ("cannot read metadata " ++ (dirPath ++ "/" ++ name))

/-- Embedding of scan_directory_recursive (src/src/lib.rs lines 123-171),
folded over the entry list in iteration order: the scripts found for each
entry (including those found by recursing into a subdirectory) are appended
before the rest of the list is scanned, and the first error aborts. -/
def scan_directory_recursive (dirPath : String) (category : Option String) :
    FsEntries → Except String (List Script)
  | FsEntries.nil => Except.ok []
  | FsEntries.cons e rest => do
    let here ← scan_fs_entry dirPath category e
    let there ← scan_directory_recursive dirPath category rest
    pure (here ++ there)

end

/-- Embedding of scan_directory (src/src/lib.rs lines 117-121): scan the root
entries with no category; an unreadable root is a fatal error (the read_dir at
the top of the recursive call). -/
def scan_directory (rootPath : String) (rootReadable : Bool)
    (entries : FsEntries) : Except String (List Script) :=
  if rootReadable then scan_directory_recursive rootPath none entries
  else Except.error ("cannot read directory " ++ rootPath)

/-- The App state of src/src/lib.rs lines 15-23 (same struct in
src/src/app.rs), field order as in the source. -/
structure App where
  scripts : List Script
  selected_index : Nat
  should_quit : Bool
  viewing_output : Bool
  output_text : String
  output_scroll : Nat
  showing_help : Bool
deriving Repr

/-- App::new (src/src/lib.rs lines 26-36). -/
def App.new (scripts : List Script) : App :=
  { scripts := scripts, selected_index := 0, should_quit := false,
    viewing_output := false, output_text := "", output_scroll := 0,
    showing_help := false }

/-- App::next (src/src/lib.rs lines 38-42): increment the cursor while it is
below len().saturating_sub(1). -/
def App.next (app : App) : App :=
  if app.selected_index < app.scripts.length - 1 then
    { app with selected_index := app.selected_index + 1 }
  else app

/-- App::previous (src/src/lib.rs lines 44-48). -/
def App.previous (app : App) : App :=
  if app.selected_index > 0 then
    { app with selected_index := app.selected_index - 1 }
  else app

/-- App::quit (src/src/lib.rs lines 50-52). -/
def App.quit (app : App) : App :=
  { app with should_quit := true }

/-- App::scroll_output_up (src/src/lib.rs lines 54-58). -/
def App.scroll_output_up (app : App) : App :=
  if app.output_scroll > 0 then
    { app with output_scroll := app.output_scroll - 1 }
  else app

/-- App::scroll_output_down (src/src/lib.rs lines 60-64). -/
def App.scroll_output_down (app : App) (max_scroll : Nat) : App :=
  if app.output_scroll < max_scroll then
    { app with output_scroll := app.output_scroll + 1 }
  else app

/-- App::show_help (src/src/lib.rs lines 66-68). -/
def App.show_help (app : App) : App :=
  { app with showing_help := true }

/-- App::hide_help (src/src/lib.rs lines 70-72). -/
def App.hide_help (app : App) : App :=
  { app with showing_help := false }

/-- App::back_to_list (src/src/lib.rs lines 74-78). -/
def App.back_to_list (app : App) : App :=
  { app with viewing_output := false, output_text := "", output_scroll := 0 }

/-- What the process-execution collaborator returns: captured stdout and
stderr text and the exit code (none when the process was terminated without a
code, e.g. by a signal). -/
structure ProcOutput where
  stdout : String
  stderr : String
  exitCode : Option Int
deriving Repr

/-- The report composition of App::run_selected_script
(src/src/app.rs lines 87-122): one template for exit code 0, one for any
other code, each with an OUTPUT and an ERRORS section with placeholders for
empty captures. -/
def format_report (stdout stderr : String) (code : Int) : String :=
  if code = 0 then
    "✓ Script completed successfully\nExit code: 0\n\n=== OUTPUT ===\n" ++
      (if stdout.data.isEmpty then "(no output)" else stdout) ++
      "\n\n=== ERRORS ===\n" ++
      (if stderr.data.isEmpty then "(none)" else stderr)
  else
    "✗ Script failed\nExit code: " ++ toString code ++
      "\n\n=== OUTPUT ===\n" ++
      (if stdout.data.isEmpty then "(no output)" else stdout) ++
      "\n\n=== ERRORS ===\n" ++
      (if stderr.data.isEmpty then "(none)" else stderr)

/-- The transient placeholder set before spawning
(src/src/app.rs lines 73-74). -/
def running_placeholder : String := "Running script...\n\nPlease wait..."

/-- The body of App::run_selected_script after the indexing
(src/src/app.rs lines 73-124), with the subprocess call abstracted into the
spawn argument: set the placeholder text and switch to Output view, then
either compose the report (spawn succeeded; exit code none maps to -1 by
unwrap_or(-1)) or return the spawn error with the state as already mutated. -/
def run_selected_script_core (app : App) (spawn : Except String ProcOutput) :
    App × Except String Unit :=
  let app1 := { app with output_text := running_placeholder,
                         viewing_output := true }
  match spawn with
  | Except.ok out =>
    ({ app1 with output_text :=
        format_report out.stdout out.stderr (out.exitCode.getD (-1)) },
     Except.ok ())
  | Except.error e => (app1, Except.error e)

/-- App::run_selected_script (src/src/app.rs lines 67-125). Its first line
indexes scripts[selected_index] with no bounds check; the none result models
the out-of-bounds access on which the source program panics. -/
def run_selected_script (app : App) (spawn : Except String ProcOutput) :
    Option (App × Except String Unit) :=
  match app.scripts[app.selected_index]? with
  | some _script => some (run_selected_script_core app spawn)
  | none => none

/-- The key events the input loop distinguishes (crossterm KeyCode as matched
in src/src/main.rs run_app): arrows, Enter, Escape, printable characters, and
everything else. -/
inductive KeyCode where
  | up
  | down
  | enter
  | esc
  | char (c : Char)
  | otherKey
deriving DecidableEq, Repr

/-- The line count of the output text as computed by the source's
str::lines().collect().len() (src/src/main.rs lines 486-489): newline
separated, a trailing newline not opening a further line. -/
def rust_line_count (s : String) : Nat :=
  if s.data.isEmpty then 0
  else (s.data.filter (fun c => c == '\n')).length +
    (if s.data.getLast? == some '\n' then 0 else 1)

/-- The fixed assumed visible height in the input-handling path
(src/src/main.rs line 492). -/
def visible_height : Nat := 20

/-- Embedding of the input handling of run_app (src/src/main.rs lines
483-529) for one key event. The source first runs the Output-view match when
viewing_output is set (scroll bounded by line count minus the assumed visible
height, any other key back to list) and then, unconditionally, the List-view
match on the same key; the spawn argument abstracts the subprocess run inside
the Enter branch, whose Err is caught and rendered as an inline error
(lines 521-526). The out-of-bounds none case of run_selected_script, on which
the source panics, is modelled as leaving the state unchanged. -/
def handle_key (app : App) (key : KeyCode) (spawn : Except String ProcOutput) :
    App :=
  let app1 :=
    if app.viewing_output then
      let max_scroll := rust_line_count app.output_text - visible_height
      match key with
      | KeyCode.up => app.scroll_output_up
      | KeyCode.down => app.scroll_output_down max_scroll
      | KeyCode.char c =>
        if c = 'k' then app.scroll_output_up
        else if c = 'j' then app.scroll_output_down max_scroll
        else app.back_to_list
      | _ => app.back_to_list
    else app
  match key with
  | KeyCode.esc => app1.quit
  | KeyCode.down => app1.next
  | KeyCode.up => app1.previous
  | KeyCode.char c =>
    if c = 'q' then app1.quit
    else if c = 'j' then app1.next
    else if c = 'k' then app1.previous
    else app1
  | KeyCode.enter =>
    match run_selected_script app1 spawn with
    | some (a2, Except.ok _) => a2
    | some (a2, Except.error e) =>
      { a2 with output_text := "Error:\n" ++ e, viewing_output := true }
    | none => app1
  | KeyCode.otherKey => app1

/-- Modelled from the spec's step description of the Description Extractor
(spec section 4.1, steps 1-2): a line is skipped without stopping the search
when it is all-whitespace or a shebang line. -/
def spec_skippable (line : String) : Bool :=
  (rust_trim line).data.isEmpty || rust_starts_with (rust_trim line) "#!"

/-- Modelled from the spec's step description of the Description Extractor
(spec section 4.1, steps 3-4): scan from the top, skip skippable lines; on
the first remaining line, with no recognized marker return no description,
with a marker strip it and trim, continuing on an empty remainder and
returning a non-empty remainder immediately. -/
def extract_description_spec : List String → Option String
  | [] => none
  | line :: rest =>
    if spec_skippable line then extract_description_spec rest
    else
      match marker_remainder (rust_trim line) with
      | none => none
      | some d =>
        if (rust_trim d).data.isEmpty then extract_description_spec rest
        else some (rust_trim d)

/-- Claim C1: extract_description scans lines from the top, skipping
all-whitespace and shebang lines; on the first remaining line a recognized
marker is stripped and the remainder trimmed, scanning continuing on an empty
remainder and a non-empty remainder returned immediately; an unrecognized
first remaining line gives none, and a file of only blank/shebang lines gives
none rather than an error. Stated as: the embedded code equals the
spec-modelled extractor on every line list, a list of only skippable lines
yields none, and the spec's three concrete scenarios evaluate as stated. -/
theorem extract_description_matches_spec :
    (∀ lines, extract_description lines = extract_description_spec lines) ∧
    (∀ lines, (∀ l ∈ lines, spec_skippable l = true) →
      extract_description lines = none) ∧
    extract_description ["#!/bin/bash", "# Build the project", "echo hi"] =
      some "Build the project" ∧
    extract_description ["#", "# Real one"] = some "Real one" ∧
    extract_description ["echo hi"] = none := by
  have hspec : ∀ lines, extract_description lines = extract_description_spec lines := by
    intro lines
    induction lines with
    | nil => rfl
    | cons line rest ih =>
      simp only [extract_description, extract_description_spec, spec_skippable]
      split
      · exact ih
      · cases hm : marker_remainder (rust_trim line) with
        | none => rfl
        | some d =>
          simp only
          split
          · exact ih
          · rfl
  refine ⟨hspec, ?_, by decide, by decide, by decide⟩
  intro lines h
  rw [hspec]
  induction lines with
  | nil => rfl
  | cons line rest ih =>
    have hl : spec_skippable line = true := h line (List.mem_cons_self line rest)
    simp only [extract_description_spec, hl, if_pos]
    exact ih (fun l hm => h l (List.mem_cons_of_mem line hm))

/-- A closed instance of the hypothesis-bearing part of the previous theorem:
a file of only blank and shebang lines yields none. -/
theorem extract_description_matches_spec_witness :
    (∀ l ∈ ["", "   ", "#!/bin/sh"], spec_skippable l = true) ∧
    extract_description ["", "   ", "#!/bin/sh"] = none :=
  ⟨by decide, extract_description_matches_spec.2.1 ["", "   ", "#!/bin/sh"] (by decide)⟩

/-- The two cursor operations of the navigation claim. -/
inductive NavOp where
  | next
  | previous
deriving DecidableEq, Repr

/-- Apply one cursor operation. -/
def apply_nav (app : App) : NavOp → App
  | NavOp.next => app.next
  | NavOp.previous => app.previous

/-- Apply a finite sequence of cursor operations in order. -/
def apply_navs (app : App) (ops : List NavOp) : App :=
  ops.foldl apply_nav app

theorem apply_nav_scripts (app : App) (op : NavOp) :
    (apply_nav app op).scripts = app.scripts := by
  cases op <;> simp only [apply_nav, App.next, App.previous] <;> split <;> rfl

theorem apply_nav_index_lt (app : App) (op : NavOp)
    (h : app.selected_index < app.scripts.length) :
    (apply_nav app op).selected_index < app.scripts.length := by
  cases op <;>
    simp only [apply_nav, App.next, App.previous] <;>
    split <;> (try dsimp only []) <;> omega

theorem apply_nav_empty (app : App) (op : NavOp) (h : app.scripts = [])
    (h0 : app.selected_index = 0) :
    (apply_nav app op).selected_index = 0 := by
  cases op <;>
    simp only [apply_nav, App.next, App.previous, h, h0, List.length_nil] <;>
    split <;> (try dsimp only []) <;> omega

/-- Claim C5: from a state whose cursor satisfies the invariant, any finite
sequence of next and previous calls keeps selected_index between 0 and
len(scripts) - 1 when scripts is non-empty, and with an empty list both
operations leave selected_index at 0 (and, being total functions, do not
fail). -/
theorem cursor_bounds_under_navigation :
    ∀ (app : App) (ops : List NavOp),
    (app.scripts ≠ [] → app.selected_index < app.scripts.length →
      0 ≤ (apply_navs app ops).selected_index ∧
      (apply_navs app ops).selected_index ≤ app.scripts.length - 1) ∧
    (app.scripts = [] → app.selected_index = 0 →
      (apply_navs app ops).selected_index = 0) := by
  intro app ops
  induction ops generalizing app with
  | nil =>
    constructor
    · intro hne h
      refine ⟨Nat.zero_le _, ?_⟩
      have hlen : app.scripts.length ≠ 0 := by
        simpa [List.length_eq_zero] using hne
      show app.selected_index ≤ app.scripts.length - 1
      omega
    · intro _ h0
      exact h0
  | cons op rest ih =>
    have hfold : apply_navs app (op :: rest) = apply_navs (apply_nav app op) rest := rfl
    constructor
    · intro hne h
      have hs := apply_nav_scripts app op
      have h2 : (apply_nav app op).selected_index < (apply_nav app op).scripts.length := by
        rw [hs]; exact apply_nav_index_lt app op h
      have hne2 : (apply_nav app op).scripts ≠ [] := by rw [hs]; exact hne
      have := (ih (apply_nav app op)).1 hne2 h2
      rw [hfold]
      rw [hs] at this
      exact this
    · intro hemp h0
      have hs := apply_nav_scripts app op
      have hemp2 : (apply_nav app op).scripts = [] := by rw [hs]; exact hemp
      have h02 : (apply_nav app op).selected_index = 0 :=
        apply_nav_empty app op hemp h0
      rw [hfold]
      exact (ih (apply_nav app op)).2 hemp2 h02

/-- A concrete three-script state for the navigation law. -/
def nav_demo_app : App :=
  App.new [⟨"/tmp/a.sh", "a.sh", none, none⟩, ⟨"/tmp/b.sh", "b.sh", none, none⟩,
           ⟨"/tmp/c.sh", "c.sh", none, none⟩]

/-- A closed instance of the navigation law: three next calls and one
previous from a fresh three-script state stay within bounds, and on the empty
list a next and a previous leave the cursor at 0. -/
theorem cursor_bounds_under_navigation_witness :
    (nav_demo_app.scripts ≠ [] ∧
     nav_demo_app.selected_index < nav_demo_app.scripts.length ∧
     0 ≤ (apply_navs nav_demo_app
        [NavOp.next, NavOp.next, NavOp.next, NavOp.previous]).selected_index ∧
     (apply_navs nav_demo_app
        [NavOp.next, NavOp.next, NavOp.next, NavOp.previous]).selected_index ≤
       nav_demo_app.scripts.length - 1) ∧
    ((App.new []).scripts = [] ∧ (App.new []).selected_index = 0 ∧
     (apply_navs (App.new []) [NavOp.next, NavOp.previous]).selected_index = 0) :=
  ⟨⟨by decide, by decide,
    ((cursor_bounds_under_navigation nav_demo_app
        [NavOp.next, NavOp.next, NavOp.next, NavOp.previous]).1
      (by decide) (by decide)).1,
    ((cursor_bounds_under_navigation nav_demo_app
        [NavOp.next, NavOp.next, NavOp.next, NavOp.previous]).1
      (by decide) (by decide)).2⟩,
   ⟨rfl, rfl,
    (cursor_bounds_under_navigation (App.new []) [NavOp.next, NavOp.previous]).2
      rfl rfl⟩⟩

/-- The spec scenario tree: executable run.sh at top level and executable
helper.sh inside subdirectory lib, everything readable. -/
def demo_entries : FsEntries :=
  FsEntries.cons (FsEntry.file "run.sh" ⟨0o755, true, true, []⟩)
    (FsEntries.cons
      (FsEntry.dir "lib" true
        (FsEntries.cons (FsEntry.file "helper.sh" ⟨0o755, true, true, []⟩)
          FsEntries.nil))
      FsEntries.nil)

/-- Claim C2: the scanner recurses into subdirectories tagging every script
found within with the immediate parent subdirectory's base name as category
(the incoming category is discarded, so categories do not nest), scripts
directly in the root get no category, and the run.sh / lib/helper.sh scenario
yields exactly the two stated entries. -/
theorem scan_directory_categories :
    scan_directory "root" true demo_entries =
      Except.ok [⟨"root/run.sh", "run.sh", none, none⟩,
                 ⟨"root/lib/helper.sh", "helper.sh", none, some "lib"⟩] ∧
    (∀ dirPath category name sub rest,
      scan_directory_recursive dirPath category
          (FsEntries.cons (FsEntry.dir name true sub) rest) = do
        let here ← scan_directory_recursive (dirPath ++ "/" ++ name) (some name) sub
        let there ← scan_directory_recursive dirPath category rest
        pure (here ++ there)) ∧
    (∀ dirPath category category2 name readable sub,
      scan_fs_entry dirPath category (FsEntry.dir name readable sub) =
      scan_fs_entry dirPath category2 (FsEntry.dir name readable sub)) ∧
    (∀ dirPath category name d rest,
      d.metaReadable = true → (d.mode &&& 0o111 != 0) = true →
      scan_directory_recursive dirPath category
          (FsEntries.cons (FsEntry.file name d) rest) = do
        let there ← scan_directory_recursive dirPath category rest
        pure (({ path := dirPath ++ "/" ++ name, name := name,
                 description := unwrap_or_none (extract_description_result d),
                 category := category } : Script) :: there)) := by
  refine ⟨rfl, fun dirPath category name sub rest => rfl,
          fun dirPath category category2 name readable sub => rfl, ?_⟩
  intro dirPath category name d rest hmeta hexec
  simp [scan_directory_recursive, scan_fs_entry, hmeta, hexec,
        Bind.bind, Except.bind, Pure.pure, Except.pure]

/-- A closed instance of the hypothesis-bearing part of the previous theorem:
an executable file with readable metadata scanned under a category is recorded
with exactly that category. -/
theorem scan_directory_categories_witness :
    (⟨0o755, true, true, []⟩ : FileData).metaReadable = true ∧
    ((⟨0o755, true, true, []⟩ : FileData).mode &&& 0o111 != 0) = true ∧
    (scan_directory_recursive "root/lib" (some "lib")
        (FsEntries.cons (FsEntry.file "helper.sh" ⟨0o755, true, true, []⟩)
          FsEntries.nil) = do
      let there ← scan_directory_recursive "root/lib" (some "lib") FsEntries.nil
      pure (({ path := "root/lib" ++ "/" ++ "helper.sh", name := "helper.sh",
               description := unwrap_or_none
                 (extract_description_result ⟨0o755, true, true, []⟩),
               category := some "lib" } : Script) :: there)) :=
  ⟨rfl, by decide,
   scan_directory_categories.2.2.2 "root/lib" (some "lib") "helper.sh"
     ⟨0o755, true, true, []⟩ FsEntries.nil rfl (by decide)⟩

/-- Claim C4 counterexample: a single entry whose metadata read fails aborts
the whole scan (the source propagates the fs::metadata error with the
question-mark operator), and an unreadable subdirectory does the same, so a
per-entry failure is not always degraded gracefully and the unreadable root is
not the only fatal scan error. -/
theorem scan_aborts_on_metadata_error :
    scan_directory "root" true
      (FsEntries.cons (FsEntry.file "bad" ⟨0o755, false, true, []⟩)
        (FsEntries.cons (FsEntry.file "good.sh" ⟨0o755, true, true, []⟩)
          FsEntries.nil)) =
      Except.error "cannot read metadata root/bad" ∧
    scan_directory "root" true
      (FsEntries.cons (FsEntry.dir "sub" false FsEntries.nil)
        (FsEntries.cons (FsEntry.file "good.sh" ⟨0o755, true, true, []⟩)
          FsEntries.nil)) =
      Except.error "cannot read directory root/sub" :=
  ⟨rfl, rfl⟩

/-- Claim C4 as amended: only a failure to read a file's content degrades
gracefully — the entry is recorded with no description and scanning
continues — while a failure to read a file's metadata, an unreadable
subdirectory, and an unreadable root each abort the scan with an error. -/
theorem scan_error_granularity :
    (∀ dirPath category name d rest,
      d.metaReadable = true → d.contentReadable = false →
      (d.mode &&& 0o111 != 0) = true →
      scan_directory_recursive dirPath category
          (FsEntries.cons (FsEntry.file name d) rest) = do
        let there ← scan_directory_recursive dirPath category rest
        pure (({ path := dirPath ++ "/" ++ name, name := name,
                 description := none, category := category } : Script) :: there)) ∧
    (∀ dirPath category name d rest,
      d.metaReadable = false →
      scan_directory_recursive dirPath category
          (FsEntries.cons (FsEntry.file name d) rest) =
        Except.error ("cannot read metadata " ++ (dirPath ++ "/" ++ name))) ∧
    (∀ dirPath category name sub rest,
      scan_directory_recursive dirPath category
          (FsEntries.cons (FsEntry.dir name false sub) rest) =
        Except.error ("cannot read directory " ++ (dirPath ++ "/" ++ name))) ∧
    (∀ rootPath entries,
      scan_directory rootPath false entries =
        Except.error ("cannot read directory " ++ rootPath)) := by
  refine ⟨?_, ?_, fun dirPath category name sub rest => rfl,
          fun rootPath entries => rfl⟩
  · intro dirPath category name d rest hmeta hcontent hexec
    simp [scan_directory_recursive, scan_fs_entry, hmeta, hexec,
          extract_description_result, hcontent, unwrap_or_none,
          Bind.bind, Except.bind, Pure.pure, Except.pure]
  · intro dirPath category name d rest hmeta
    simp [scan_directory_recursive, scan_fs_entry, hmeta,
          Bind.bind, Except.bind]

/-- A closed instance of the hypothesis-bearing part of the previous theorem:
an executable file whose content cannot be read is recorded with no
description and the scan goes on. -/
theorem scan_error_granularity_witness :
    (⟨0o755, true, false, []⟩ : FileData).metaReadable = true ∧
    (⟨0o755, true, false, []⟩ : FileData).contentReadable = false ∧
    ((⟨0o755, true, false, []⟩ : FileData).mode &&& 0o111 != 0) = true ∧
    (scan_directory_recursive "root" none
        (FsEntries.cons (FsEntry.file "opaque.sh" ⟨0o755, true, false, []⟩)
          (FsEntries.cons (FsEntry.file "good.sh" ⟨0o755, true, true, []⟩)
            FsEntries.nil)) = do
      let there ← scan_directory_recursive "root" none
        (FsEntries.cons (FsEntry.file "good.sh" ⟨0o755, true, true, []⟩)
          FsEntries.nil)
      pure (({ path := "root" ++ "/" ++ "opaque.sh", name := "opaque.sh",
               description := none, category := none } : Script) :: there)) :=
  ⟨rfl, rfl, by decide,
   scan_error_granularity.1 "root" none "opaque.sh" ⟨0o755, true, false, []⟩
     (FsEntries.cons (FsEntry.file "good.sh" ⟨0o755, true, true, []⟩)
       FsEntries.nil) rfl rfl (by decide)⟩

/-- The header line(s) of the report as the spec describes them: a success
marker when the exit code is 0, otherwise a failure marker with the numeric
code. -/
def report_header (code : Int) : String :=
  if code = 0 then "✓ Script completed successfully\nExit code: 0"
  else "✗ Script failed\nExit code: " ++ toString code

/-- The OUTPUT section body: captured stdout, or the literal placeholder when
empty. -/
def report_output_section (stdout : String) : String :=
  if stdout.data.isEmpty then "(no output)" else stdout

/-- The ERRORS section body: captured stderr, or the literal placeholder when
empty. -/
def report_errors_section (stderr : String) : String :=
  if stderr.data.isEmpty then "(none)" else stderr

/-- Claim C6: the composed report is always the header (success marker for
exit code 0, failure marker with the code otherwise), then an OUTPUT section
showing stdout or the placeholder, then an ERRORS section showing stderr or
the placeholder; and the exit-code-2, empty-stdout, stderr-boom scenario
produces exactly the stated report. -/
theorem run_report_format :
    (∀ stdout stderr code,
      format_report stdout stderr code =
        report_header code ++ "\n\n=== OUTPUT ===\n" ++
        report_output_section stdout ++ "\n\n=== ERRORS ===\n" ++
        report_errors_section stderr) ∧
    format_report "" "boom" 2 =
      "✗ Script failed\nExit code: 2\n\n=== OUTPUT ===\n(no output)\n\n=== ERRORS ===\nboom" := by
  constructor
  · intro stdout stderr code
    by_cases h : code = 0 <;>
      simp [format_report, report_header, report_output_section,
            report_errors_section, h, String.append_assoc]
  · rfl

/-- A concrete script record for the input-loop scenarios. -/
def sample_script : Script := ⟨"/tmp/a.sh", "a.sh", none, none⟩

/-- A second concrete script record, so cursor movement is observable. -/
def sample_script2 : Script := ⟨"/tmp/b.sh", "b.sh", none, none⟩

/-- A concrete state in Output view with two scripts and the cursor on the
first. -/
def output_view_app : App :=
  { scripts := [sample_script, sample_script2], selected_index := 0,
    should_quit := false, viewing_output := true, output_text := "hello",
    output_scroll := 0, showing_help := false }

/-- Claim C3 failing input: in Output view the input handler runs the
Output-view match and then falls through into the List-view match on the same
key event. Key q performs returnToList and additionally quit, and key j
performs the (no-op at this scroll bound) scrollDown and additionally
moveNext, so List-view transitions do run on the same key event. -/
theorem output_view_key_fallthrough :
    (handle_key output_view_app (KeyCode.char 'q') (Except.error "unused")).viewing_output
      = false ∧
    (handle_key output_view_app (KeyCode.char 'q') (Except.error "unused")).should_quit
      = true ∧
    (handle_key output_view_app (KeyCode.char 'j') (Except.error "unused")).viewing_output
      = true ∧
    (handle_key output_view_app (KeyCode.char 'j') (Except.error "unused")).selected_index
      = 1 := by
  refine ⟨rfl, rfl, rfl, rfl⟩

/-- A concrete state in List view (fresh App over one script). -/
def list_view_app : App := App.new [sample_script]

/-- Claim C9 failing input: the input loop of run_app never consults
showing_help and binds no key to show_help or hide_help. Pressing the question
mark in List view leaves the state unchanged (the help flag stays false), and
with the help flag set a key press does not clear it. -/
theorem help_key_unbound :
    handle_key list_view_app (KeyCode.char '?') (Except.error "unused")
      = list_view_app ∧
    (handle_key { list_view_app with showing_help := true } (KeyCode.char 'x')
      (Except.error "unused")).showing_help = true := by
  refine ⟨rfl, rfl⟩

/-- Claim C7 counterexample: with output_scroll at 0, scrollUp is a no-op and
scrollDown(1) then moves to 1, so the bounded round trip does not return to
the original value even though 1 is at least the original value 0. -/
theorem scroll_round_trip_fails_at_zero :
    output_view_app.output_scroll ≤ 1 ∧
    ((output_view_app.scroll_output_up).scroll_output_down 1).output_scroll ≠
      output_view_app.output_scroll := by
  refine ⟨by decide, by decide⟩

/-- Claim C7 as amended: for every App whose output_scroll is positive,
scrollUp then scrollDown(n) with n at least the original value returns
output_scroll to its original value. -/
theorem scroll_round_trip_amended (app : App) (n : Nat)
    (hpos : 0 < app.output_scroll) (hn : app.output_scroll ≤ n) :
    ((app.scroll_output_up).scroll_output_down n).output_scroll =
      app.output_scroll := by
  have h1 : app.scroll_output_up =
      { app with output_scroll := app.output_scroll - 1 } := by
    unfold App.scroll_output_up
    rw [if_pos hpos]
  rw [h1]
  unfold App.scroll_output_down
  have h2 : ({ app with output_scroll := app.output_scroll - 1 } : App).output_scroll < n := by
    dsimp only []
    omega
  rw [if_pos h2]
  dsimp only []
  omega

/-- A concrete state scrolled to 5, for the amended round-trip law. -/
def scrolled_app : App :=
  { scripts := [sample_script], selected_index := 0, should_quit := false,
    viewing_output := true, output_text := "hello", output_scroll := 5,
    showing_help := false }

/-- A closed instance of the amended round-trip law at scroll 5 with bound
10. -/
theorem scroll_round_trip_amended_witness :
    0 < scrolled_app.output_scroll ∧ scrolled_app.output_scroll ≤ 10 ∧
    ((scrolled_app.scroll_output_up).scroll_output_down 10).output_scroll =
      scrolled_app.output_scroll :=
  ⟨by decide, by decide, scroll_round_trip_amended scrolled_app 10 (by decide) (by decide)⟩

/-- Claim C10: run_selected_script indexes scripts[selected_index]
unconditionally; when scripts is non-empty and selected_index is in range the
access is in bounds (the operation yields a result rather than the modelled
panic), and with an empty scripts list the access is out of bounds (the
modelled panic, none). -/
theorem run_selected_script_index_bounds :
    (∀ (app : App) (spawn : Except String ProcOutput),
      app.scripts ≠ [] → app.selected_index < app.scripts.length →
      (run_selected_script app spawn).isSome = true) ∧
    (∀ (app : App) (spawn : Except String ProcOutput),
      app.scripts = [] → run_selected_script app spawn = none) := by
  constructor
  · intro app spawn _ h
    simp [run_selected_script, List.getElem?_eq_getElem h]
  · intro app spawn h
    simp [run_selected_script, h]

/-- A closed instance of the two parts of the previous theorem: the in-bounds
state yields a result, the empty state the modelled out-of-bounds access. -/
theorem run_selected_script_index_bounds_witness :
    (list_view_app.scripts ≠ [] ∧
     list_view_app.selected_index < list_view_app.scripts.length ∧
     (run_selected_script list_view_app (Except.error "gone")).isSome = true) ∧
    ((App.new []).scripts = [] ∧
     run_selected_script (App.new []) (Except.error "gone") = none) :=
  ⟨⟨by decide, by decide,
    run_selected_script_index_bounds.1 list_view_app (Except.error "gone")
      (by decide) (by decide)⟩,
   ⟨rfl, run_selected_script_index_bounds.2 (App.new []) (Except.error "gone") rfl⟩⟩

/-- Claim C8: when the selected script cannot be spawned, the Enter handling
stores the application-level error string in place of the report, switches to
Output view, and leaves should_quit untouched so the input loop keeps
running. Stated for every state whose cursor is in bounds (the loop is only
entered with a non-empty list) and every spawn error. -/
theorem launch_error_recovered_inline (app : App) (e : String)
    (h : app.selected_index < app.scripts.length) :
    (handle_key app KeyCode.enter (Except.error e)).output_text =
      "Error:\n" ++ e ∧
    (handle_key app KeyCode.enter (Except.error e)).viewing_output = true ∧
    (handle_key app KeyCode.enter (Except.error e)).should_quit =
      app.should_quit := by
  by_cases hv : app.viewing_output <;>
    simp [handle_key, hv, App.back_to_list, run_selected_script,
          run_selected_script_core, List.getElem?_eq_getElem h]

/-- A closed instance of the previous theorem at a concrete in-bounds state
and spawn error. -/
theorem launch_error_recovered_inline_witness :
    list_view_app.selected_index < list_view_app.scripts.length ∧
    ((handle_key list_view_app KeyCode.enter (Except.error "gone")).output_text =
        "Error:\n" ++ "gone" ∧
     (handle_key list_view_app KeyCode.enter (Except.error "gone")).viewing_output = true ∧
     (handle_key list_view_app KeyCode.enter (Except.error "gone")).should_quit =
        list_view_app.should_quit) :=
  ⟨by decide, launch_error_recovered_inline list_view_app "gone" (by decide)⟩
